import Mathlib

/-
Verification of the trade-journal repository against its specification.

Shallow embedding conventions, applied uniformly:
* Python `float` values are modelled as exact rationals (`ℚ`).  The
  accounting and amount-parsing code performs only +, -, *, / on floats,
  and the specification states the intended arithmetic exactly, so the
  rational model is the faithful idealisation of the numeric intent.
* Python `None` is modelled with `Option`; Python truthiness of a float
  (`if x:`) is `x` being present and nonzero, truthiness of a string is
  being present and nonempty.
* Python exceptions that escape a function are modelled with
  `Except String`; the string names the Python exception.
* Text is modelled as `List Char`.  The regular-expression character
  classes (\w, \s, \d, [A-Z] under IGNORECASE) are modelled over ASCII;
  every input considered in the theorems below is ASCII.
-/

namespace TradeJournal

/-! ## Position accounting (services/position_tracker.py)

A position row.  `models.create_position` inserts a row with
`status = 'OPEN'`; all numeric columns start as NULL/0 and every read in
`update_position_from_trade` applies `or 0`, so the initial totals are 0.
-/

structure Position where
  total_bought : ℚ
  total_sold : ℚ
  remaining_tokens : ℚ
  total_cost_usd : ℚ
  total_proceeds_usd : ℚ
  realized_pnl_usd : ℚ
  status : String
deriving DecidableEq, Repr

/-- The freshly created position: `INSERT INTO positions (..., status) VALUES (..., 'OPEN')`,
numeric fields read back through `or 0`. -/
def initPosition : Position :=
  { total_bought := 0
    total_sold := 0
    remaining_tokens := 0
    total_cost_usd := 0
    total_proceeds_usd := 0
    realized_pnl_usd := 0
    status := "OPEN" }

/-- `update_position_from_trade` (position_tracker.py lines 321-388).
The BUY branch writes only `total_bought`, `remaining_tokens`,
`total_cost_usd`, `status`; the SELL branch writes only `total_sold`,
`remaining_tokens`, `total_proceeds_usd`, `realized_pnl_usd`, `status`;
all other columns keep their current values. -/
def update_position_from_trade (p : Position) (trade_type : String)
    (amount_tokens total_value_usd : ℚ) : Position :=
  if trade_type = "BUY" then
    { p with
      total_bought := p.total_bought + amount_tokens
      remaining_tokens := p.remaining_tokens + amount_tokens
      total_cost_usd := p.total_cost_usd + total_value_usd
      status := "OPEN" }
  else
    -- SELL
    let new_sold := p.total_sold + amount_tokens
    let new_remaining := p.remaining_tokens - amount_tokens
    let new_proceeds := p.total_proceeds_usd + total_value_usd
    let new_pnl :=
      if p.total_bought > 0 then
        let avg_cost_per_token := p.total_cost_usd / p.total_bought
        let cost_of_sold := amount_tokens * avg_cost_per_token
        let realized_pnl := total_value_usd - cost_of_sold
        p.realized_pnl_usd + realized_pnl
      else
        p.realized_pnl_usd
    if new_remaining ≤ 0 then
      { p with
        total_sold := new_sold
        remaining_tokens := 0  -- Prevent negative
        total_proceeds_usd := new_proceeds
        realized_pnl_usd := new_pnl
        status := "CLOSED" }
    else
      { p with
        total_sold := new_sold
        remaining_tokens := new_remaining
        total_proceeds_usd := new_proceeds
        realized_pnl_usd := new_pnl
        status := "PARTIAL" }

/-- A trade as fed to `update_position_from_trade`: trade type, token
amount, USD value. -/
def TradeInput := String × ℚ × ℚ
deriving DecidableEq

def applyTrade (p : Position) (t : TradeInput) : Position :=
  update_position_from_trade p t.1 t.2.1 t.2.2

/-- Processing a sequence of trades against one position, in order. -/
def applyTrades (p : Position) (ts : List TradeInput) : Position :=
  ts.foldl applyTrade p

/-- A buy of `a` tokens for `v` USD, as `process_trade` hands it to the
position engine. -/
def mkBuy (av : ℚ × ℚ) : TradeInput := ("BUY", av.1, av.2)

/-- A sell of `a` tokens for `v` USD. -/
def mkSell (av : ℚ × ℚ) : TradeInput := ("SELL", av.1, av.2)

/-! ## A small backtracking regular-expression engine

`re.search` / `re.finditer` of the Python standard library, restricted to
the constructs the repository patterns use: literals, one-character
classes with greedy counted repetition, concatenation, ordered
alternation, greedy option, capture groups and the `\b` word-boundary
assertion.  Each pattern of `parsing/patterns.py` is transliterated into
this syntax below.  Backtracking preference order (leftmost match,
earlier alternative first, greedy repetition) follows Python.
-/

/-- ASCII model of the regex class `\w`. -/
def isWordChar (c : Char) : Bool := c.isAlphanum || c == '_'

/-- ASCII model of the regex class `\s`. -/
def isSpaceChar (c : Char) : Bool :=
  c == ' ' || c == '\t' || c == '\n' || c == '\r' || c == '\x0b' || c == '\x0c'

/-- ASCII letter, the class `[A-Z]` under `re.IGNORECASE`. -/
def isLetterChar (c : Char) : Bool := c.isAlpha

/-- Char at a position is a word character (out of range counts as not). -/
def wordAt (s : List Char) (i : Nat) : Bool :=
  match s[i]? with
  | some c => isWordChar c
  | none => false

/-- The `\b` assertion holds between positions `i-1` and `i`. -/
def atBoundary (s : List Char) (i : Nat) : Bool :=
  (if i = 0 then false else wordAt s (i - 1)) != wordAt s i

inductive RE where
  | eps
  | lit (l : List Char)
  | cls (p : Char → Bool) (lo : Nat) (hi : Option Nat)
  | cat (a b : RE)
  | alt2 (a b : RE)
  | opt (a : RE)
  | grp (idx : Nat) (a : RE)
  | wordB

/-- Sequence a list of pieces. -/
def rcat : List RE → RE
  | [] => .eps
  | [a] => a
  | a :: rest => .cat a (rcat rest)

/-- Ordered alternation of a list of branches. -/
def ralt : List RE → RE
  | [] => .eps
  | [a] => a
  | a :: rest => .alt2 a (ralt rest)

/-- Case-insensitive literal (every repository pattern that contains a
literal is compiled with `re.IGNORECASE`). -/
def rlit (t : String) : RE := .lit t.toList

/-- Captured group spans: group index, start, end. -/
abbrev Caps := List (Nat × Nat × Nat)

abbrev Res := Nat × Caps

/-- Match a literal case-insensitively at position `i`; return the end. -/
def litAt (s : List Char) : Nat → List Char → Option Nat
  | i, [] => some i
  | i, c :: cs =>
    match s[i]? with
    | some d => if d.toLower = c.toLower then litAt s (i + 1) cs else none
    | none => none

/-- Length of the maximal run of class characters starting at `i`. -/
def clsRun (s : List Char) (p : Char → Bool) : Nat → Nat → Nat
  | _, 0 => 0
  | i, fuel + 1 =>
    match s[i]? with
    | some c => if p c then 1 + clsRun s p (i + 1) fuel else 0
    | none => 0

/-- Greedy counted repetition: try `cnt` characters first, then fewer,
stopping at `lo`.  `k` is the continuation of the rest of the pattern. -/
def tryCountsDown (k : Nat → Caps → Option Res) (i lo : Nat) (caps : Caps) :
    Nat → Option Res
  | 0 => if lo = 0 then k i caps else none
  | cnt + 1 =>
    if cnt + 1 < lo then none
    else
      match k (i + (cnt + 1)) caps with
      | some r => some r
      | none => tryCountsDown k i lo caps cnt

/-- The backtracking matcher, in continuation-passing style. -/
def reMatch (s : List Char) : RE → Nat → Caps → (Nat → Caps → Option Res) → Option Res
  | .eps, i, caps, k => k i caps
  | .wordB, i, caps, k => if atBoundary s i then k i caps else none
  | .lit l, i, caps, k =>
    match litAt s i l with
    | some j => k j caps
    | none => none
  | .cls p lo hi, i, caps, k =>
    let maxrun := clsRun s p i (s.length + 1)
    let m := match hi with
      | some h => min h maxrun
      | none => maxrun
    tryCountsDown k i lo caps m
  | .cat a b, i, caps, k =>
    reMatch s a i caps (fun j caps2 => reMatch s b j caps2 k)
  | .alt2 a b, i, caps, k =>
    match reMatch s a i caps k with
    | some r => some r
    | none => reMatch s b i caps k
  | .opt a, i, caps, k =>
    match reMatch s a i caps k with
    | some r => some r
    | none => k i caps
  | .grp idx a, i, caps, k =>
    reMatch s a i caps (fun j caps2 => k j ((idx, i, j) :: caps2))

structure MatchRes where
  startPos : Nat
  endPos : Nat
  caps : Caps
deriving Repr

/-- Attempt a match anchored at position `i` (Python `re.match` at `i`). -/
def reMatchAt (r : RE) (s : List Char) (i : Nat) : Option Res :=
  reMatch s r i [] (fun j caps => some (j, caps))

/-- Leftmost match with start position ≥ `i` (Python `re.search`). -/
def reSearchFrom (r : RE) (s : List Char) : Nat → Nat → Option MatchRes
  | 0, _ => none
  | fuel + 1, i =>
    if i > s.length then none
    else
      match reMatchAt r s i with
      | some (j, caps) => some ⟨i, j, caps⟩
      | none => reSearchFrom r s fuel (i + 1)

def research (r : RE) (s : List Char) : Option MatchRes :=
  reSearchFrom r s (s.length + 1) 0

/-- All non-overlapping matches scanning left to right (Python
`re.finditer`); an empty match advances the scan position by one. -/
def reFindIter (r : RE) (s : List Char) : Nat → Nat → List MatchRes
  | 0, _ => []
  | fuel + 1, i =>
    match reSearchFrom r s (s.length + 1) i with
    | none => []
    | some m =>
      m :: reFindIter r s fuel (if m.endPos > m.startPos then m.endPos else m.startPos + 1)

def refinditer (r : RE) (s : List Char) : List MatchRes :=
  reFindIter r s (s.length + 1) 0

/-- The characters of the span `[a, b)`. -/
def capSlice (s : List Char) (ab : Nat × Nat) : List Char :=
  (s.drop ab.1).take (ab.2 - ab.1)

/-- Span of capture group `idx`, if it participated in the match. -/
def getCap (m : MatchRes) (idx : Nat) : Option (Nat × Nat) :=
  (m.caps.find? (fun c => c.1 = idx)).map (fun c => c.2)

/-- Text of capture group `idx` (`None` when the group did not match). -/
def groupStr (s : List Char) (m : MatchRes) (idx : Nat) : Option (List Char) :=
  (getCap m idx).map (capSlice s)

/-- The whole matched text (`match.group(0)`). -/
def matchedStr (s : List Char) (m : MatchRes) : List Char :=
  capSlice s (m.startPos, m.endPos)

/-! ## String helpers shared by the embedded modules -/

def strOf (l : List Char) : String := String.mk l

/-- ASCII model of `str.lower`. -/
def lowerList (l : List Char) : List Char := l.map Char.toLower

def lowerStr (s : String) : String := strOf (lowerList s.toList)

/-- ASCII model of `str.upper`. -/
def upperStr (s : String) : String := strOf (s.toList.map Char.toUpper)

def startsWithList (s pat : List Char) : Bool :=
  match s, pat with
  | _, [] => true
  | [], _ :: _ => false
  | c :: cs, d :: ds => c == d && startsWithList cs ds

/-- Python `pat in s` (substring containment). -/
def substrIn (pat : List Char) : List Char → Bool
  | [] => startsWithList [] pat
  | c :: cs => startsWithList (c :: cs) pat || substrIn pat cs

/-- Strip leading and trailing ASCII whitespace. -/
def trimWs (cs : List Char) : List Char :=
  ((cs.dropWhile isSpaceChar).reverse.dropWhile isSpaceChar).reverse

/-- Python truthiness of an optional string: `None` and `""` are falsy. -/
def pyTruthyStr : Option String → Bool
  | none => false
  | some s => s != ""

/-- Python truthiness of an optional float: `None` and `0.0` are falsy. -/
def pyTruthyQ : Option ℚ → Bool
  | none => false
  | some x => x != 0

/-! ## Numeric literal parsing (Python `float(str)`)

Model of CPython `float` applied to a string: optional surrounding
whitespace, optional sign, decimal mantissa (digits, or digits on either
side of one dot, at least one digit overall), optional decimal exponent.
Underscore digit separators and the non-finite literals (`inf`, `nan`)
are outside the model; no string produced by the repository regexes
contains them.  `none` models a `ValueError`.  Values are exact
rationals (see the header). -/

def digitsToNat (ds : List Char) : Nat :=
  ds.foldl (fun n c => 10 * n + (c.toNat - 48)) 0

def pyFloatExpPart (v : ℚ) (sgnNeg : Bool) (ds : List Char) : Option ℚ :=
  if ds ≠ [] ∧ ds.all Char.isDigit then
    some (if sgnNeg then v / 10 ^ digitsToNat ds else v * 10 ^ digitsToNat ds)
  else none

def pyFloatTail (v : ℚ) : List Char → Option ℚ
  | [] => some v
  | c :: rest =>
    if c == 'e' || c == 'E' then
      match rest with
      | '+' :: ds => pyFloatExpPart v false ds
      | '-' :: ds => pyFloatExpPart v true ds
      | ds => pyFloatExpPart v false ds
    else none

def pyFloatUnsigned (cs : List Char) : Option ℚ :=
  let ip := cs.takeWhile Char.isDigit
  let rest := cs.dropWhile Char.isDigit
  if rest.head? == some '.' then
    let fp := (rest.drop 1).takeWhile Char.isDigit
    let rest3 := (rest.drop 1).dropWhile Char.isDigit
    if ip.isEmpty && fp.isEmpty then none
    else pyFloatTail ((digitsToNat ip : ℚ) + (digitsToNat fp : ℚ) / 10 ^ fp.length) rest3
  else if ip.isEmpty then none
  else pyFloatTail (digitsToNat ip : ℚ) rest

def pyFloat (cs : List Char) : Option ℚ :=
  let t := trimWs cs
  if t.head? == some '+' then pyFloatUnsigned (t.drop 1)
  else if t.head? == some '-' then (pyFloatUnsigned (t.drop 1)).map (fun x => -x)
  else pyFloatUnsigned t

/-! ## parsing/patterns.py -/

def isDigitComma (c : Char) : Bool := c.isDigit || c == ','

/-- The class `[KkMmBb]`. -/
def isKMB (c : Char) : Bool :=
  c == 'K' || c == 'k' || c == 'M' || c == 'm' || c == 'B' || c == 'b'

/-- The class `[a-fA-F0-9]`. -/
def isHexChar (c : Char) : Bool :=
  c.isDigit || ('a' ≤ c && c ≤ 'f') || ('A' ≤ c && c ≤ 'F')

/-- The base58 class `[1-9A-HJ-NP-Za-km-z]` (case-sensitive). -/
def isBase58 (c : Char) : Bool :=
  ('1' ≤ c && c ≤ '9') || ('A' ≤ c && c ≤ 'H') || ('J' ≤ c && c ≤ 'N') ||
  ('P' ≤ c && c ≤ 'Z') || ('a' ≤ c && c ≤ 'k') || ('m' ≤ c && c ≤ 'z')

def isAlnumChar (c : Char) : Bool := c.isAlphanum

/-- The class `[a-zA-Z0-9_-]`. -/
def isAlnumUnderDash (c : Char) : Bool := c.isAlphanum || c == '_' || c == '-'

/-- The complement class of `URL_PATTERN`. -/
def isUrlChar (c : Char) : Bool :=
  !isSpaceChar c && !(("<>\"\x7b\x7d|\\^`[]").toList.contains c)

/-- `0x[a-fA-F0-9]{40}` (IGNORECASE). -/
def EVM_ADDRESS_PATTERN : RE :=
  rcat [rlit ("0x"), .cls isHexChar 40 (some 40)]

/-- `[1-9A-HJ-NP-Za-km-z]{32,44}` (case-sensitive). -/
def SOLANA_ADDRESS_PATTERN : RE :=
  .cls isBase58 32 (some 44)

/-- `(?:https?://)?dexscreener\.com/([a-zA-Z0-9_-]+)/([a-zA-Z0-9]+)` (IGNORECASE). -/
def DEXSCREENER_PATTERN : RE :=
  rcat [.opt (rcat [rlit ("http"), .opt (rlit ("s")), rlit ("://")]),
        rlit ("dexscreener.com/"),
        .grp 1 (.cls isAlnumUnderDash 1 none), rlit ("/"),
        .grp 2 (.cls isAlnumChar 1 none)]

/-- The shared amount group `([\d,]+(?:\.\d+)?)` as group 1. -/
def numGroup : RE :=
  .grp 1 (rcat [.cls isDigitComma 1 none,
                .opt (rcat [rlit ("."), .cls Char.isDigit 1 none])])

/-- `\$\s*([\d,]+(?:\.\d+)?)\s*([KkMmBb])?` (IGNORECASE). -/
def USD_AMOUNT_PATTERN : RE :=
  rcat [rlit ("$"), .cls isSpaceChar 0 none, numGroup,
        .cls isSpaceChar 0 none, .opt (.grp 2 (.cls isKMB 1 (some 1)))]

/-- `([\d,]+(?:\.\d+)?)\s*([KkMmBb])?\s*(ETH|SOL|BTC|USDC|USDT|BNB|MATIC|AVAX|FTM)`
(IGNORECASE). -/
def CRYPTO_AMOUNT_PATTERN : RE :=
  rcat [numGroup, .cls isSpaceChar 0 none, .opt (.grp 2 (.cls isKMB 1 (some 1))),
        .cls isSpaceChar 0 none,
        .grp 3 (ralt [rlit ("ETH"), rlit ("SOL"), rlit ("BTC"), rlit ("USDC"),
                      rlit ("USDT"), rlit ("BNB"), rlit ("MATIC"), rlit ("AVAX"),
                      rlit ("FTM")])]

/-- `(?:\$\s*)?([\d,]+(?:\.\d+)?)\s*([KkMmBb])?\s*(?:mcap|mc|market\s*cap)`
(IGNORECASE). -/
def MARKET_CAP_PATTERN : RE :=
  rcat [.opt (rcat [rlit ("$"), .cls isSpaceChar 0 none]), numGroup,
        .cls isSpaceChar 0 none, .opt (.grp 2 (.cls isKMB 1 (some 1))),
        .cls isSpaceChar 0 none,
        ralt [rlit ("mcap"), rlit ("mc"),
              rcat [rlit ("market"), .cls isSpaceChar 0 none, rlit ("cap")]]]

/-- `\b(bought|buy|buying|entered|entry|ape|aped|aping|grabbed|sniped|sniping|longed|long|in|added)\b`
(IGNORECASE). -/
def BUY_KEYWORDS_PATTERN : RE :=
  rcat [.wordB,
        .grp 1 (ralt [rlit ("bought"), rlit ("buy"), rlit ("buying"),
                      rlit ("entered"), rlit ("entry"), rlit ("ape"),
                      rlit ("aped"), rlit ("aping"), rlit ("grabbed"),
                      rlit ("sniped"), rlit ("sniping"), rlit ("longed"),
                      rlit ("long"), rlit ("in"), rlit ("added")]),
        .wordB]

/-- `\b(sold|sell|selling|exit|exited|exiting|out|dumped|took\s*profit|tp|closed|shorte?d?)\b`
(IGNORECASE). -/
def SELL_KEYWORDS_PATTERN : RE :=
  rcat [.wordB,
        .grp 1 (ralt [rlit ("sold"), rlit ("sell"), rlit ("selling"),
                      rlit ("exit"), rlit ("exited"), rlit ("exiting"),
                      rlit ("out"), rlit ("dumped"),
                      rcat [rlit ("took"), .cls isSpaceChar 0 none, rlit ("profit")],
                      rlit ("tp"), rlit ("closed"),
                      rcat [rlit ("short"), .opt (rlit ("e")), .opt (rlit ("d"))]]),
        .wordB]

/-- `https?://[^\s<>"{}|\\^`\[\]]+` (IGNORECASE). -/
def URL_PATTERN : RE :=
  rcat [rlit ("http"), .opt (rlit ("s")), rlit ("://"), .cls isUrlChar 1 none]

/-- `\b([A-Z]{2,10})\s*(?:perps?|perpetuals?|futures?)\b` (IGNORECASE). -/
def PERP_PATTERN : RE :=
  rcat [.wordB, .grp 1 (.cls isLetterChar 2 (some 10)), .cls isSpaceChar 0 none,
        ralt [rcat [rlit ("perp"), .opt (rlit ("s"))],
              rcat [rlit ("perpetual"), .opt (rlit ("s"))],
              rcat [rlit ("future"), .opt (rlit ("s"))]],
        .wordB]

def COMMON_PERP_SYMBOLS : List String :=
  ["BTC", "ETH", "SOL", "BNB", "XRP", "ADA", "AVAX", "MATIC", "DOT", "LINK",
   "ARB", "OP", "APT", "SUI", "SEI", "TIA", "INJ", "NEAR", "FTM",
   "UNI", "AAVE", "CRV", "LDO", "MKR", "SNX", "DYDX", "GMX",
   "DOGE", "SHIB", "PEPE", "WIF", "BONK", "FLOKI",
   "JTO", "JUP", "PYTH", "RAY", "ORCA",
   "HYPE", "PURR"]

/-- `\bspot\b` (IGNORECASE). -/
def SPOT_PATTERN : RE := rcat [.wordB, rlit ("spot"), .wordB]

/-- `\b([A-Z]{2,10})\s+(?:on\s+)?(?:hyperliquid|hl|binance|bybit|dydx|gmx)\b`
(IGNORECASE). -/
def SYMBOL_EXCHANGE_PATTERN : RE :=
  rcat [.wordB, .grp 1 (.cls isLetterChar 2 (some 10)), .cls isSpaceChar 1 none,
        .opt (rcat [rlit ("on"), .cls isSpaceChar 1 none]),
        ralt [rlit ("hyperliquid"), rlit ("hl"), rlit ("binance"),
              rlit ("bybit"), rlit ("dydx"), rlit ("gmx")],
        .wordB]

/-- The `EXCHANGE_PATTERNS` dict, in insertion order. -/
def EXCHANGE_PATTERNS : List (String × RE) :=
  [("hyperliquid", rcat [.wordB, ralt [rlit ("hyperliquid"), rlit ("hl")], .wordB]),
   ("binance",
    rcat [.wordB,
          ralt [rlit ("binance"),
                rcat [rlit ("binance"), .cls isSpaceChar 0 none,
                      rlit ("future"), .opt (rlit ("s"))],
                rcat [rlit ("binance"), .cls isSpaceChar 0 none,
                      rlit ("perp"), .opt (rlit ("s"))]],
          .wordB]),
   ("bybit", rcat [.wordB, rlit ("bybit"), .wordB]),
   ("dydx", rcat [.wordB, rlit ("dydx"), .wordB]),
   ("gmx", rcat [.wordB, rlit ("gmx"), .wordB])]

/-- `\b(?:longe?d?|long)\b` (IGNORECASE). -/
def LONG_PATTERN : RE :=
  rcat [.wordB,
        ralt [rcat [rlit ("long"), .opt (rlit ("e")), .opt (rlit ("d"))], rlit ("long")],
        .wordB]

/-- `\b(?:shorte?d?|short)\b` (IGNORECASE). -/
def SHORT_PATTERN : RE :=
  rcat [.wordB,
        ralt [rcat [rlit ("short"), .opt (rlit ("e")), .opt (rlit ("d"))], rlit ("short")],
        .wordB]

/-- The `multipliers.get(suffix, 1)` lookup of `parse_number_with_suffix`. -/
def multiplierDictGet (sfx : String) : ℚ :=
  if sfx = "K" then 1000
  else if sfx = "M" then 1000000
  else if sfx = "B" then 1000000000
  else 1

/-- `parse_number_with_suffix(value, suffix)`: strip commas, convert with
`float`, then multiply by the suffix multiplier when the suffix is truthy
(`.error` models the `ValueError` that `float` raises on a string with no
digits). -/
def parse_number_with_suffix (value : String) (suffix : Option String) :
    Except String ℚ :=
  let clean_value := value.toList.filter (fun c => c != ',')
  match pyFloat clean_value with
  | none => .error ("ValueError: could not convert string to float")
  | some number =>
    .ok (if pyTruthyStr suffix
         then number * multiplierDictGet (upperStr (suffix.getD ""))
         else number)

def extract_evm_addresses (text : List Char) : List (List Char) :=
  (refinditer EVM_ADDRESS_PATTERN text).map (matchedStr text)

def extract_solana_addresses (text : List Char) : List (List Char) :=
  (refinditer SOLANA_ADDRESS_PATTERN text).map (matchedStr text)

def extract_dexscreener_info (text : List Char) : List (List Char × List Char) :=
  (refinditer DEXSCREENER_PATTERN text).map
    (fun m => ((groupStr text m 1).getD [], (groupStr text m 2).getD []))

def extract_usd_amounts (text : List Char) : Except String (List ℚ) :=
  (refinditer USD_AMOUNT_PATTERN text).mapM
    (fun m => parse_number_with_suffix (strOf ((groupStr text m 1).getD []))
                ((groupStr text m 2).map strOf))

def extract_crypto_amounts (text : List Char) : Except String (List (ℚ × String)) :=
  (refinditer CRYPTO_AMOUNT_PATTERN text).mapM
    (fun m => do
      let amount ← parse_number_with_suffix (strOf ((groupStr text m 1).getD []))
                     ((groupStr text m 2).map strOf)
      pure (amount, upperStr (strOf ((groupStr text m 3).getD []))))

def extract_market_cap (text : List Char) : Except String (Option ℚ) :=
  match research MARKET_CAP_PATTERN text with
  | some m =>
    (parse_number_with_suffix (strOf ((groupStr text m 1).getD []))
      ((groupStr text m 2).map strOf)).map some
  | none => .ok none

def detect_trade_type (text : List Char) : Option String :=
  let buy_match := research BUY_KEYWORDS_PATTERN text
  let sell_match := research SELL_KEYWORDS_PATTERN text
  match buy_match, sell_match with
  | some _, none => some ("BUY")
  | none, some _ => some ("SELL")
  | some bm, some sm => some (if bm.startPos < sm.startPos then "BUY" else "SELL")
  | none, none => none

def extract_urls (text : List Char) : List (List Char) :=
  ((refinditer URL_PATTERN text).map (matchedStr text)).filter
    (fun url => !substrIn ("dexscreener.com".toList) (lowerList url))

def extract_perp_info (text : List Char) : Option (String × String) :=
  let symbol : Option String :=
    match research PERP_PATTERN text with
    | some m => some (upperStr (strOf ((groupStr text m 1).getD [])))
    | none =>
      match research SYMBOL_EXCHANGE_PATTERN text with
      | some m =>
        let potential_symbol := upperStr (strOf ((groupStr text m 1).getD []))
        if COMMON_PERP_SYMBOLS.contains potential_symbol then some potential_symbol
        else none
      | none => none
  match symbol with
  | some sym =>
    some (sym, if (research SHORT_PATTERN text).isSome then "SHORT" else "LONG")
  | none => none

def detect_exchange (text : List Char) : Option String :=
  match EXCHANGE_PATTERNS.find? (fun ep => (research ep.2 text).isSome) with
  | some ep => some ep.1
  | none =>
    if (research PERP_PATTERN text).isSome then some ("hyperliquid") else none

def is_spot_trade (text : List Char) : Bool :=
  (research SPOT_PATTERN text).isSome

def is_perp_trade (text : List Char) : Bool :=
  if is_spot_trade text then false
  else if (research PERP_PATTERN text).isSome then true
  else
    match research SYMBOL_EXCHANGE_PATTERN text with
    | some m =>
      COMMON_PERP_SYMBOLS.contains (upperStr (strOf ((groupStr text m 1).getD [])))
    | none => false

def extract_cex_spot_info (text : List Char) : Option (String × Option String) :=
  if !is_spot_trade text then none
  else
    match research SYMBOL_EXCHANGE_PATTERN text with
    | some m =>
      let symbol := upperStr (strOf ((groupStr text m 1).getD []))
      if COMMON_PERP_SYMBOLS.contains symbol then some (symbol, detect_exchange text)
      else none
    | none => none

/-! ## parsing/chain_detector.py -/

structure ChainInfo where
  chain : String
  address : String
  address_type : String
  confidence : String
deriving DecidableEq, Repr

/-- The `EVM_CHAINS` dict, in insertion order. -/
def EVM_CHAINS : List (String × String) :=
  [("ethereum", "ethereum"), ("eth", "ethereum"), ("base", "base"),
   ("bsc", "bsc"), ("bnb", "bsc"), ("binance", "bsc"),
   ("arbitrum", "arbitrum"), ("arb", "arbitrum"),
   ("polygon", "polygon"), ("matic", "polygon"),
   ("optimism", "optimism"), ("op", "optimism"),
   ("avalanche", "avalanche"), ("avax", "avalanche"),
   ("fantom", "fantom"), ("ftm", "fantom"),
   ("zksync", "zksync"), ("linea", "linea"), ("blast", "blast"),
   ("hyperliquid", "hyperliquid"), ("hl", "hyperliquid")]

def normalize_chain_name (chain : String) : String :=
  match EVM_CHAINS.find? (fun kv => kv.1 = lowerStr chain) with
  | some kv => kv.2
  | none => lowerStr chain

/-- One hexadecimal digit, then digits with single interior underscores. -/
def hexTail : List Char → Bool
  | [] => true
  | '_' :: rest =>
    match rest with
    | c :: rest2 => isHexChar c && hexTail rest2
    | [] => false
  | c :: rest => isHexChar c && hexTail rest

def hexDigitsBody : List Char → Bool
  | [] => false
  | c :: rest => isHexChar c && hexTail rest

/-- Acceptance of CPython `int(s, 16)`: optional surrounding whitespace,
optional single sign, an optional `0x`/`0X` prefix (an underscore may
follow the prefix), then hexadecimal digits with single underscores
allowed between digits.  This is deliberately wider than "40 hex
characters": `int` also accepts, e.g., an inner `0x` prefix. -/
def pyIntBase16Accepts (cs : List Char) : Bool :=
  let t := trimWs cs
  let t1 := match t with
    | '+' :: rest => rest
    | '-' :: rest => rest
    | _ => t
  match t1 with
  | '0' :: c :: rest =>
    if c == 'x' || c == 'X' then
      match rest with
      | '_' :: rest2 => hexDigitsBody rest2
      | _ => hexDigitsBody rest
    else hexDigitsBody t1
  | _ => hexDigitsBody t1

/-- `detect_address_type` (chain_detector.py lines 74-98): the EVM branch
checks `startswith('0x')`, total length 42, and that `int(address[2:], 16)`
does not raise; otherwise the base58 length-32..44 check; otherwise
`'unknown'`. -/
def detect_address_type (address : String) : String :=
  let cs := address.toList
  if startsWithList cs ("0x".toList) && cs.length == 42 &&
      pyIntBase16Accepts (cs.drop 2) then "evm"
  else if 32 ≤ cs.length && cs.length ≤ 44 && cs.all isBase58 then "solana"
  else "unknown"

/-- The `chain_mentions` list of `detect_chain_from_text`, in order. -/
def chainMentions : List (String × String) :=
  [("solana", "solana"), ("on sol", "solana"),
   ("ethereum", "ethereum"), ("on eth", "ethereum"), ("mainnet", "ethereum"),
   ("base", "base"), ("on base", "base"),
   ("bsc", "bsc"), ("bnb", "bsc"), ("binance", "bsc"),
   ("arbitrum", "arbitrum"), ("arb", "arbitrum"),
   ("polygon", "polygon"),
   ("hyperliquid", "hyperliquid"), ("on hl", "hyperliquid")]

def detect_chain_from_text (text : List Char) : Option String :=
  let text_lower := lowerList text
  (chainMentions.find? (fun kc => substrIn kc.1.toList text_lower)).map
    (fun kc => kc.2)

def create_chain_info (address : List Char) (chain : Option String)
    (from_dex_link : Bool) : ChainInfo :=
  let address_type := detect_address_type (strOf address)
  let confidence :=
    if from_dex_link then "high"
    else if pyTruthyStr chain then "medium"
    else "low"
  let chain2 :=
    if !pyTruthyStr chain then
      if address_type = "solana" then "solana"
      else if address_type = "evm" then "base"
      else "unknown"
    else normalize_chain_name (chain.getD "")
  { chain := chain2, address := strOf address,
    address_type := address_type, confidence := confidence }

/-! ## parsing/message_parser.py (the local regex path)

Exceptions escaping the parse are modelled with `Except.error`; the only
sources are the `ValueError` of `float` inside the amount extractors and
the `NameError` for the undefined `parse_cex_spot_trade`. -/

structure ParsedTrade where
  trade_type : Option String := none
  contract_address : Option String := none
  chain : Option String := none
  token_symbol : Option String := none
  amount_spent : Option ℚ := none
  spend_currency : Option String := none
  market_cap : Option ℚ := none
  notes_url : Option String := none
  dex_screener_url : Option String := none
  is_perp : Bool := false
  exchange : Option String := none
  position_type : Option String := none
  raw_message : String := ""
  parse_confidence : String := "low"
  missing_fields : List String := []
deriving DecidableEq, Repr

structure ParseResult where
  trades : List ParsedTrade := []
  raw_message : String := ""
  success : Bool := false
  error_message : Option String := none
deriving DecidableEq, Repr

def find_all_addresses (text : List Char) : List ChainInfo :=
  let dex_info := extract_dexscreener_info text
  let addresses := dex_info.map (fun ca => create_chain_info ca.2 (some (strOf ca.1)) true)
  let found_addresses := addresses.map (fun ci => lowerStr ci.address)
  let evm_addresses := extract_evm_addresses text
  let text_chain := detect_chain_from_text text
  let acc1 := evm_addresses.foldl
    (fun (acc : List ChainInfo × List String) addr =>
      if acc.2.contains (lowerStr (strOf addr)) then acc
      else (acc.1 ++ [create_chain_info addr text_chain false],
            acc.2 ++ [lowerStr (strOf addr)]))
    (addresses, found_addresses)
  let acc2 :=
    if substrIn ("solana".toList) (lowerList text) || evm_addresses.isEmpty then
      (extract_solana_addresses text).foldl
        (fun (acc : List ChainInfo × List String) addr =>
          if acc.2.contains (lowerStr (strOf addr)) then acc
          else if 32 ≤ addr.length && !addr.all Char.isAlpha then
            (acc.1 ++ [create_chain_info addr (some "solana") false],
             acc.2 ++ [lowerStr (strOf addr)])
          else acc)
        acc1
    else acc1
  acc2.1

def parse_perp_trade (text : List Char) : Except String ParsedTrade := do
  let perp_info := extract_perp_info text
  let (token_symbol, position_type, mf1) :=
    match perp_info with
    | some sp => (some sp.1, some sp.2, ([] : List String))
    | none => (none, none, ["token_symbol"])
  let exchange := detect_exchange text
  let trade_type :=
    match detect_trade_type text with
    | some t => some t
    | none => if position_type = some "SHORT" then some "SELL" else some "BUY"
  let usd_amounts ← extract_usd_amounts text
  let crypto_amounts ← extract_crypto_amounts text
  let (amount_spent, spend_currency, mf2) :=
    match crypto_amounts with
    | ac :: _ => (some ac.1, some ac.2, ([] : List String))
    | [] =>
      match usd_amounts with
      | a :: _ => (some a, some "USD", ([] : List String))
      | [] => (none, none, ["amount_spent"])
  let urls := extract_urls text
  pure { trade_type := trade_type, token_symbol := token_symbol,
         is_perp := true, exchange := exchange, chain := exchange,
         position_type := position_type, amount_spent := amount_spent,
         spend_currency := spend_currency, notes_url := urls.head?.map strOf,
         raw_message := strOf text, parse_confidence := "medium",
         missing_fields := mf1 ++ mf2 }

def parse_single_trade (text : List Char) (chain_info : Option ChainInfo) :
    Except String ParsedTrade := do
  let (contract_address, chain, parse_confidence) :=
    match chain_info with
    | some ci => (some ci.address, some ci.chain, ci.confidence)
    | none => (none, none, "low")
  let (trade_type, mf1) :=
    match detect_trade_type text with
    | some t => (some t, ([] : List String))
    | none => (if chain_info.isSome then some "BUY" else none, ["trade_type"])
  let usd_amounts ← extract_usd_amounts text
  let crypto_amounts ← extract_crypto_amounts text
  let (amount_spent, spend_currency, mf2) :=
    match crypto_amounts with
    | ac :: _ => (some ac.1, some ac.2, ([] : List String))
    | [] =>
      match usd_amounts with
      | a :: _ => (some a, some "USD", ([] : List String))
      | [] => (none, none, ["amount_spent"])
  let market_cap ← extract_market_cap text
  let urls := extract_urls text
  let dex_info := extract_dexscreener_info text
  let dex_screener_url :=
    match dex_info with
    | ca :: _ => some ("https://dexscreener.com/" ++ strOf ca.1 ++ "/" ++ strOf ca.2)
    | [] => none
  pure { trade_type := trade_type, contract_address := contract_address,
         chain := chain, amount_spent := amount_spent,
         spend_currency := spend_currency, market_cap := market_cap,
         notes_url := urls.head?.map strOf, dex_screener_url := dex_screener_url,
         raw_message := strOf text, parse_confidence := parse_confidence,
         missing_fields := mf1 ++ mf2 }

/-- `parse_message_with_regex`.  The CEX-spot branch of the source calls
`parse_cex_spot_trade`, a name that is neither defined nor imported
anywhere in the repository, so that branch raises `NameError`. -/
def parse_message_with_regex (text : List Char) : Except String ParseResult :=
  if is_perp_trade text then do
    let trade ← parse_perp_trade text
    pure { trades := [trade], raw_message := strOf text,
           success := true, error_message := none }
  else
    match extract_cex_spot_info text with
    | some _ => .error ("NameError: name parse_cex_spot_trade is not defined")
    | none =>
      match find_all_addresses text with
      | [] => do
        let trade ← parse_single_trade text none
        if trade.trade_type = some "SELL" ∧ pyTruthyStr trade.contract_address = false then
          pure { trades := [{ trade with
                              missing_fields := trade.missing_fields ++ ["contract_address"] }],
                 raw_message := strOf text, success := true, error_message := none }
        else
          pure { trades := [], raw_message := strOf text, success := false,
                 error_message :=
                   some ("No contract address found. Please include the contract address or DEX Screener link.") }
      | [ci] => do
        let trade ← parse_single_trade text (some ci)
        pure { trades := [trade], raw_message := strOf text,
               success := true, error_message := none }
      | cis => do
        let trades ← cis.mapM (fun ci => parse_single_trade text (some ci))
        pure { trades := trades, raw_message := strOf text,
               success := true, error_message := none }

/-! ## services/position_tracker.py: process_trade and the perp/CEX path -/

/-- The fields of the DEX Screener `TokenInfo` dataclass that
`process_trade` reads. -/
structure TokenInfo where
  contract_address : String := ""
  chain : String := ""
  symbol : String := ""
  name : String := ""
  price_usd : Option ℚ := none
  market_cap : Option ℚ := none
  dex_url : String := ""
deriving DecidableEq, Repr

/-- The arguments `process_trade` / `process_perp_or_cex_trade` pass to
`models.create_trade` (the immutable trade ledger row). -/
structure TradeRecord where
  trade_type : Option String
  amount_spent : Option ℚ
  spend_currency : Option String
  amount_tokens : Option ℚ
  price_usd : Option ℚ
  total_value_usd : Option ℚ
  market_cap_at_trade : Option ℚ
  source_message : String
  notes_url : Option String
  dex_screener_url : Option String
deriving DecidableEq, Repr

/-- Step 4 of `process_trade` (lines 161-173): token amount and USD value
are only computed when the spend amount and a resolver price are truthy
and the spend currency is a USD stablecoin; otherwise both stay `None`. -/
def computeSpotAmounts (amount_spent : Option ℚ) (spend_currency : Option String)
    (token_info : Option TokenInfo) : Option ℚ × Option ℚ :=
  if pyTruthyQ amount_spent ∧ token_info.isSome ∧
      pyTruthyQ (token_info.bind (fun ti => ti.price_usd)) then
    if spend_currency ∈ [some "USD", some "USDC", some "USDT", some "DAI"] then
      (some ((amount_spent.getD 0) / ((token_info.bind (fun ti => ti.price_usd)).getD 0)),
       amount_spent)
    else (none, none)
  else (none, none)

/-- Steps 4-6 of `process_trade` for a spot trade whose position row
exists: the trade row is always created (step 5); the position update
(step 6) runs only under `if position and amount_tokens and
total_value_usd` — a DB row dict is always truthy, so the guard is the
truthiness of the two computed numbers. -/
def process_trade_record_and_update (position : Position) (trade_type : String)
    (amount_spent : Option ℚ) (spend_currency : Option String)
    (token_info : Option TokenInfo) (parsed_market_cap : Option ℚ)
    (raw_message : String) (notes_url dex_screener_url : Option String) :
    TradeRecord × Position :=
  let (amount_tokens, total_value_usd) :=
    computeSpotAmounts amount_spent spend_currency token_info
  let trade : TradeRecord :=
    { trade_type := some trade_type
      amount_spent := amount_spent
      spend_currency := spend_currency
      amount_tokens := amount_tokens
      price_usd := token_info.bind (fun ti => ti.price_usd)
      total_value_usd := total_value_usd
      market_cap_at_trade :=
        if pyTruthyQ parsed_market_cap then parsed_market_cap
        else token_info.bind (fun ti => ti.market_cap)
      source_message := raw_message
      notes_url := notes_url
      dex_screener_url :=
        if pyTruthyStr dex_screener_url then dex_screener_url
        else token_info.map (fun ti => ti.dex_url) }
  let position2 :=
    if pyTruthyQ amount_tokens ∧ pyTruthyQ total_value_usd then
      update_position_from_trade position trade_type
        (amount_tokens.getD 0) (total_value_usd.getD 0)
    else position
  (trade, position2)

/-- The amount logic of `process_perp_or_cex_trade` (lines 272-280):
USD value is the spend amount for USD/USDC/USDT, else `None`; a truthy
USD value doubles as the "token amount" (position size in USD). -/
def perpCexAmounts (amount_spent : Option ℚ) (spend_currency : Option String) :
    Option ℚ × Option ℚ :=
  let total_value_usd :=
    if spend_currency ∈ [some "USD", some "USDC", some "USDT"] then amount_spent
    else none
  let amount_tokens := if pyTruthyQ total_value_usd then total_value_usd else none
  (amount_tokens, total_value_usd)

/-- The trade-row creation and position update of
`process_perp_or_cex_trade` (lines 272-307). -/
def process_perp_or_cex_core (position : Position) (trade_type : String)
    (amount_spent : Option ℚ) (spend_currency : Option String)
    (raw_message : String) (notes_url : Option String) : TradeRecord × Position :=
  let (amount_tokens, total_value_usd) := perpCexAmounts amount_spent spend_currency
  let trade : TradeRecord :=
    { trade_type := some trade_type
      amount_spent := amount_spent
      spend_currency := spend_currency
      amount_tokens := amount_tokens
      price_usd := some 1  -- For USD-denominated perps, price is 1:1
      total_value_usd := total_value_usd
      market_cap_at_trade := none
      source_message := raw_message
      notes_url := notes_url
      dex_screener_url := none }
  let position2 :=
    if pyTruthyQ amount_tokens ∧ pyTruthyQ total_value_usd then
      update_position_from_trade position trade_type
        (amount_tokens.getD 0) (total_value_usd.getD 0)
    else position
  (trade, position2)

/-! ## Specification-side formulation of amount parsing (spec section 8)

These definitions follow the words of the specification — "the numeric
value of v with commas removed, multiplied by 1,000 for K, 1,000,000 for
M, 1,000,000,000 for B, and 1 when the suffix is absent,
case-insensitively" — to be compared against the source-translated
`parse_number_with_suffix`. -/

/-- A decimal amount literal as the claim quantifies it (and as the
repository regexes produce it): digits with optional comma grouping,
optionally followed by a dot and at least one fraction digit. -/
def wfAmountLit (cs : List Char) : Bool :=
  let ip := cs.takeWhile isDigitComma
  let rest := cs.dropWhile isDigitComma
  ip.any Char.isDigit &&
    (rest.isEmpty ||
      (rest.head? == some '.' && !(rest.drop 1).isEmpty && (rest.drop 1).all Char.isDigit))

/-- The numeric value of a decimal literal with its commas removed:
integer part plus fraction part. -/
def specDecimalValue (cs : List Char) : ℚ :=
  let noCommas := cs.filter (fun c => c != ',')
  let ip := noCommas.takeWhile Char.isDigit
  let fp := (noCommas.dropWhile Char.isDigit).drop 1
  (digitsToNat ip : ℚ) + (digitsToNat fp : ℚ) / 10 ^ fp.length

/-- The suffix multiplier of the specification, case-insensitive. -/
def specSuffixMult : Option String → ℚ
  | none => 1
  | some s =>
    if upperStr s = "K" then 1000
    else if upperStr s = "M" then 1000000
    else if upperStr s = "B" then 1000000000
    else 1

/-! # Theorems -/

/-! ## Position accounting -/

/-- The SELL dispatch condition of `update_position_from_trade`. -/
theorem sell_ne_buy_str : ¬ (("SELL" : String) = "BUY") := by decide

/-- Closed form of a run of BUY updates: the totals accumulate the sums
of the bought amounts and costs, and the status is `OPEN` as soon as at
least one BUY was applied. -/
theorem applyTrades_buys (l : List (ℚ × ℚ)) (p : Position) :
    applyTrades p (l.map mkBuy) =
      { p with
        total_bought := p.total_bought + (l.map Prod.fst).sum
        remaining_tokens := p.remaining_tokens + (l.map Prod.fst).sum
        total_cost_usd := p.total_cost_usd + (l.map Prod.snd).sum
        status := if l.isEmpty then p.status else "OPEN" } := by
  induction l generalizing p with
  | nil => simp [applyTrades]
  | cons a t ih =>
    have hstep : applyTrades p ((a :: t).map mkBuy) =
        applyTrades (applyTrade p (mkBuy a)) (t.map mkBuy) := rfl
    have hbuy : applyTrade p (mkBuy a) =
        { p with
          total_bought := p.total_bought + a.1
          remaining_tokens := p.remaining_tokens + a.1
          total_cost_usd := p.total_cost_usd + a.2
          status := "OPEN" } := rfl
    rw [hstep, ih, hbuy]
    simp [Position.mk.injEq, add_assoc, ite_self]

/-- C1: starting from the fresh position, for a trade list in which all
BUYs precede all SELLs, the final `realized_pnl_usd` is invariant under
permuting the BUYs among themselves. -/
theorem realized_pnl_invariant_under_buy_permutation
    (buys buys2 sells : List (ℚ × ℚ)) (hperm : buys.Perm buys2) :
    (applyTrades initPosition (buys.map mkBuy ++ sells.map mkSell)).realized_pnl_usd =
      (applyTrades initPosition (buys2.map mkBuy ++ sells.map mkSell)).realized_pnl_usd := by
  have hsplit : ∀ bs : List (ℚ × ℚ),
      applyTrades initPosition (bs.map mkBuy ++ sells.map mkSell) =
        applyTrades (applyTrades initPosition (bs.map mkBuy)) (sells.map mkSell) := by
    intro bs
    simp [applyTrades, List.foldl_append]
  have h1 : applyTrades initPosition (buys.map mkBuy) =
      applyTrades initPosition (buys2.map mkBuy) := by
    rw [applyTrades_buys, applyTrades_buys]
    have hf := (hperm.map Prod.fst).sum_eq
    have hs := (hperm.map Prod.snd).sum_eq
    have he : buys.isEmpty = buys2.isEmpty := by
      have hlen := hperm.length_eq
      cases buys <;> cases buys2 <;> simp_all
    rw [hf, hs, he]
  rw [hsplit, hsplit, h1]

/-- Witness for C1: the spec example — buy 1000 tokens for USD 100 and
1000 tokens for USD 300 in either order, then sell 500 for USD 150;
realized PnL is invariant and equals exactly 50. -/
theorem realized_pnl_invariant_under_buy_permutation_witness :
    ([((1000 : ℚ), (100 : ℚ)), (1000, 300)]).Perm [(1000, 300), (1000, 100)] ∧
    (applyTrades initPosition
        ([((1000 : ℚ), (100 : ℚ)), (1000, 300)].map mkBuy ++
          [((500 : ℚ), (150 : ℚ))].map mkSell)).realized_pnl_usd =
      (applyTrades initPosition
        ([((1000 : ℚ), (300 : ℚ)), (1000, 100)].map mkBuy ++
          [((500 : ℚ), (150 : ℚ))].map mkSell)).realized_pnl_usd ∧
    (applyTrades initPosition
        ([((1000 : ℚ), (100 : ℚ)), (1000, 300)].map mkBuy ++
          [((500 : ℚ), (150 : ℚ))].map mkSell)).realized_pnl_usd = 50 :=
  ⟨List.Perm.swap _ _ _,
   realized_pnl_invariant_under_buy_permutation _ _ _ (List.Perm.swap _ _ _),
   by norm_num [applyTrades, applyTrade, update_position_from_trade, initPosition,
                mkBuy, mkSell, sell_ne_buy_str]⟩

/-- C2 counterexample: after BUY 1000, SELL 500, BUY 100 the position has
sells recorded (`total_sold = 500`) and `remaining_tokens = 600 > 0`, yet
its status is `OPEN`, not `PARTIAL` — the BUY branch unconditionally
stores `status='OPEN'`. -/
theorem buy_after_sell_leaves_status_open :
    (applyTrades initPosition
        [("BUY", 1000, 100), ("SELL", 500, 150), ("BUY", 100, 10)]).status = "OPEN" ∧
    (applyTrades initPosition
        [("BUY", 1000, 100), ("SELL", 500, 150), ("BUY", 100, 10)]).total_sold = 500 ∧
    (applyTrades initPosition
        [("BUY", 1000, 100), ("SELL", 500, 150), ("BUY", 100, 10)]).remaining_tokens = 600 := by
  norm_num [applyTrades, applyTrade, update_position_from_trade, initPosition, sell_ne_buy_str]

/-- Reachable-state invariant: `CLOSED` states store zero remaining and
`PARTIAL` states store positive remaining. -/
theorem applyTrades_closed_partial_invariant (ts : List TradeInput) (p : Position)
    (hp : (p.status = "CLOSED" → p.remaining_tokens = 0) ∧
          (p.status = "PARTIAL" → 0 < p.remaining_tokens)) :
    ((applyTrades p ts).status = "CLOSED" → (applyTrades p ts).remaining_tokens = 0) ∧
    ((applyTrades p ts).status = "PARTIAL" → 0 < (applyTrades p ts).remaining_tokens) := by
  induction ts generalizing p with
  | nil => exact hp
  | cons t rest ih =>
    have hstep : applyTrades p (t :: rest) = applyTrades (applyTrade p t) rest := rfl
    rw [hstep]
    apply ih
    unfold applyTrade update_position_from_trade
    by_cases hb : t.1 = "BUY"
    · rw [if_pos hb]
      exact ⟨fun h => absurd (show ("OPEN" : String) = "CLOSED" from h) (by decide),
             fun h => absurd (show ("OPEN" : String) = "PARTIAL" from h) (by decide)⟩
    · rw [if_neg hb]
      by_cases hr : p.remaining_tokens - t.2.1 ≤ 0
      · rw [if_pos hr]
        exact ⟨fun _ => rfl,
               fun h => absurd (show ("CLOSED" : String) = "PARTIAL" from h) (by decide)⟩
      · rw [if_neg hr]
        refine ⟨fun h => absurd (show ("PARTIAL" : String) = "CLOSED" from h) (by decide),
                fun _ => ?_⟩
        show (0 : ℚ) < p.remaining_tokens - t.2.1
        have := lt_of_not_le hr
        linarith

/-- While every applied trade is a BUY, the status stays `OPEN`. -/
theorem applyTrades_all_buys_status (ts : List TradeInput) (p : Position)
    (hp : p.status = "OPEN") (hb : ∀ t ∈ ts, t.1 = "BUY") :
    (applyTrades p ts).status = "OPEN" := by
  induction ts generalizing p with
  | nil => exact hp
  | cons t rest ih =>
    have hstep : applyTrades p (t :: rest) = applyTrades (applyTrade p t) rest := rfl
    rw [hstep]
    refine ih _ ?_ (fun u hu => hb u (List.mem_cons_of_mem _ hu))
    have ht : t.1 = "BUY" := hb t (List.mem_cons_self _ _)
    unfold applyTrade update_position_from_trade
    rw [if_pos ht]

/-- C2 amended: for every reachable position state, the status is `OPEN`
while no sell has been applied, `CLOSED` only with remaining exactly 0,
and `PARTIAL` only with positive remaining; but a BUY applied to any
position (also one that already has sells and positive remaining) stores
status `OPEN`, not `PARTIAL`. -/
theorem position_status_invariant (ts : List TradeInput) :
    ((∀ t ∈ ts, t.1 = "BUY") → (applyTrades initPosition ts).status = "OPEN") ∧
    ((applyTrades initPosition ts).status = "CLOSED" →
      (applyTrades initPosition ts).remaining_tokens = 0) ∧
    ((applyTrades initPosition ts).status = "PARTIAL" →
      0 < (applyTrades initPosition ts).remaining_tokens) ∧
    (∀ (p : Position) (a v : ℚ),
      (update_position_from_trade p "BUY" a v).status = "OPEN") := by
  refine ⟨fun hb => applyTrades_all_buys_status ts initPosition rfl hb, ?_, ?_, ?_⟩
  · exact (applyTrades_closed_partial_invariant ts initPosition
      ⟨fun h => absurd (show ("OPEN" : String) = "CLOSED" from h) (by decide),
       fun h => absurd (show ("OPEN" : String) = "PARTIAL" from h) (by decide)⟩).1
  · exact (applyTrades_closed_partial_invariant ts initPosition
      ⟨fun h => absurd (show ("OPEN" : String) = "CLOSED" from h) (by decide),
       fun h => absurd (show ("OPEN" : String) = "PARTIAL" from h) (by decide)⟩).2
  · intro p a v
    unfold update_position_from_trade
    rw [if_pos rfl]

/-- Witness for C2 (amended), exercising each implication at concrete
trade lists: all-buys keeps `OPEN`; a closing sell yields `CLOSED` with
remaining 0; a partial sell yields `PARTIAL` with remaining positive; a
BUY on a partially-sold position stores `OPEN`. -/
theorem position_status_invariant_witness :
    (applyTrades initPosition [("BUY", 5, 1)]).status = "OPEN" ∧
    (applyTrades initPosition [("BUY", 5, 1), ("SELL", 5, 2)]).remaining_tokens = 0 ∧
    0 < (applyTrades initPosition [("BUY", 5, 1), ("SELL", 2, 1)]).remaining_tokens ∧
    (update_position_from_trade
      (applyTrades initPosition [("BUY", 5, 1), ("SELL", 2, 1)]) "BUY" 1 1).status = "OPEN" :=
  ⟨(position_status_invariant [("BUY", 5, 1)]).1 (by decide),
   (position_status_invariant [("BUY", 5, 1), ("SELL", 5, 2)]).2.1
     (by norm_num [applyTrades, applyTrade, update_position_from_trade,
                   initPosition, sell_ne_buy_str]),
   (position_status_invariant [("BUY", 5, 1), ("SELL", 2, 1)]).2.2.1
     (by norm_num [applyTrades, applyTrade, update_position_from_trade,
                   initPosition, sell_ne_buy_str]),
   (position_status_invariant []).2.2.2 _ 1 1⟩

/-- C4: a SELL never stores a negative remaining; selling at least the
current remaining stores exactly 0 with status `CLOSED`, selling less
stores status `PARTIAL`; and a BUY of a nonnegative amount never
decreases the remaining. -/
theorem sell_clamps_remaining_and_status (p : Position) (a v : ℚ) :
    0 ≤ (update_position_from_trade p "SELL" a v).remaining_tokens ∧
    (p.remaining_tokens ≤ a →
      (update_position_from_trade p "SELL" a v).remaining_tokens = 0 ∧
      (update_position_from_trade p "SELL" a v).status = "CLOSED") ∧
    (a < p.remaining_tokens →
      (update_position_from_trade p "SELL" a v).status = "PARTIAL") ∧
    (0 ≤ a →
      p.remaining_tokens ≤ (update_position_from_trade p "BUY" a v).remaining_tokens) := by
  unfold update_position_from_trade
  rw [if_neg sell_ne_buy_str, if_pos rfl]
  by_cases hr : p.remaining_tokens - a ≤ 0
  · rw [if_pos hr]
    refine ⟨le_refl 0, fun _ => ⟨rfl, rfl⟩,
            fun hlt => absurd hr (not_le.mpr (by linarith)), fun ha => ?_⟩
    show p.remaining_tokens ≤ p.remaining_tokens + a
    linarith
  · rw [if_neg hr]
    have hpos := lt_of_not_le hr
    refine ⟨?_, fun hle => absurd (show p.remaining_tokens - a ≤ 0 by linarith) hr,
            fun _ => rfl, fun ha => ?_⟩
    · show (0 : ℚ) ≤ p.remaining_tokens - a
      linarith
    · show p.remaining_tokens ≤ p.remaining_tokens + a
      linarith

/-- Witness for C4 at a concrete position with remaining 5: an
exhausting sell of 7, a partial sell of 2, and a BUY of 3. -/
theorem sell_clamps_remaining_and_status_witness :
    ((update_position_from_trade { initPosition with remaining_tokens := 5 } "SELL" 7 1).remaining_tokens = 0 ∧
      (update_position_from_trade { initPosition with remaining_tokens := 5 } "SELL" 7 1).status = "CLOSED") ∧
    (update_position_from_trade { initPosition with remaining_tokens := 5 } "SELL" 2 1).status = "PARTIAL" ∧
    ({ initPosition with remaining_tokens := 5 } : Position).remaining_tokens ≤
      (update_position_from_trade { initPosition with remaining_tokens := 5 } "BUY" 3 1).remaining_tokens :=
  ⟨(sell_clamps_remaining_and_status { initPosition with remaining_tokens := 5 } 7 1).2.1
     (by show (5 : ℚ) ≤ 7; norm_num),
   (sell_clamps_remaining_and_status { initPosition with remaining_tokens := 5 } 2 1).2.2.1
     (by show (2 : ℚ) < 5; norm_num),
   (sell_clamps_remaining_and_status { initPosition with remaining_tokens := 5 } 3 1).2.2.2
     (by show (0 : ℚ) ≤ 3; norm_num)⟩

/-- C5: a SELL on a position with `total_bought = 0` takes the unguarded
branch — no average-cost division happens, the realized PnL is unchanged
— while sold, proceeds and remaining are still updated. -/
theorem sell_with_zero_bought (p : Position) (a v : ℚ) (h : p.total_bought = 0) :
    (update_position_from_trade p "SELL" a v).realized_pnl_usd = p.realized_pnl_usd ∧
    (update_position_from_trade p "SELL" a v).total_sold = p.total_sold + a ∧
    (update_position_from_trade p "SELL" a v).total_proceeds_usd = p.total_proceeds_usd + v ∧
    (update_position_from_trade p "SELL" a v).remaining_tokens =
      (if p.remaining_tokens - a ≤ 0 then 0 else p.remaining_tokens - a) := by
  unfold update_position_from_trade
  rw [if_neg sell_ne_buy_str, h, if_neg (lt_irrefl 0)]
  by_cases hr : p.remaining_tokens - a ≤ 0
  · rw [if_pos hr, if_pos hr]
    exact ⟨rfl, rfl, rfl, rfl⟩
  · rw [if_neg hr, if_neg hr]
    exact ⟨rfl, rfl, rfl, rfl⟩

/-- Witness for C5 at the fresh position (never bought) with a sell of 3
tokens for 7 USD. -/
theorem sell_with_zero_bought_witness :
    (update_position_from_trade initPosition "SELL" 3 7).realized_pnl_usd =
      initPosition.realized_pnl_usd ∧
    (update_position_from_trade initPosition "SELL" 3 7).total_sold =
      initPosition.total_sold + 3 ∧
    (update_position_from_trade initPosition "SELL" 3 7).total_proceeds_usd =
      initPosition.total_proceeds_usd + 7 ∧
    (update_position_from_trade initPosition "SELL" 3 7).remaining_tokens =
      (if initPosition.remaining_tokens - 3 ≤ 0 then 0 else initPosition.remaining_tokens - 3) :=
  sell_with_zero_bought initPosition 3 7 rfl

/-- C3: when the token amount or the USD value of a spot trade could not
be determined (is `None`), `process_trade` still creates the trade row —
carrying exactly those `None` amounts — but the position is left
completely unchanged. -/
theorem spot_accounting_skipped_when_amounts_unknown
    (position : Position) (trade_type : String)
    (amount_spent : Option ℚ) (spend_currency : Option String)
    (token_info : Option TokenInfo) (pmc : Option ℚ) (raw : String)
    (nurl durl : Option String)
    (h : (computeSpotAmounts amount_spent spend_currency token_info).1 = none ∨
         (computeSpotAmounts amount_spent spend_currency token_info).2 = none) :
    (process_trade_record_and_update position trade_type amount_spent spend_currency
        token_info pmc raw nurl durl).2 = position ∧
    (process_trade_record_and_update position trade_type amount_spent spend_currency
        token_info pmc raw nurl durl).1.amount_tokens =
      (computeSpotAmounts amount_spent spend_currency token_info).1 ∧
    (process_trade_record_and_update position trade_type amount_spent spend_currency
        token_info pmc raw nurl durl).1.total_value_usd =
      (computeSpotAmounts amount_spent spend_currency token_info).2 ∧
    (process_trade_record_and_update position trade_type amount_spent spend_currency
        token_info pmc raw nurl durl).1.trade_type = some trade_type := by
  rcases hc : computeSpotAmounts amount_spent spend_currency token_info with ⟨x, y⟩
  rw [hc] at h
  simp only [process_trade_record_and_update, hc]
  rcases h with h | h <;> subst h <;> simp [pyTruthyQ]

/-- Witness for C3: a BUY of 100 USD on a token whose resolver price is
unavailable — the amounts compute to `None`, the row records them as
`None`, and the position is untouched. -/
theorem spot_accounting_skipped_witness :
    (process_trade_record_and_update initPosition "BUY" (some 100) (some "USD")
        (some { price_usd := none }) none "msg" none none).2 = initPosition ∧
    (process_trade_record_and_update initPosition "BUY" (some 100) (some "USD")
        (some { price_usd := none }) none "msg" none none).1.amount_tokens =
      (computeSpotAmounts (some 100) (some "USD") (some { price_usd := none })).1 ∧
    (process_trade_record_and_update initPosition "BUY" (some 100) (some "USD")
        (some { price_usd := none }) none "msg" none none).1.total_value_usd =
      (computeSpotAmounts (some 100) (some "USD") (some { price_usd := none })).2 ∧
    (process_trade_record_and_update initPosition "BUY" (some 100) (some "USD")
        (some { price_usd := none }) none "msg" none none).1.trade_type = some "BUY" :=
  spot_accounting_skipped_when_amounts_unknown initPosition "BUY" (some 100)
    (some "USD") (some { price_usd := none }) none "msg" none none
    (Or.inl (by simp [computeSpotAmounts, pyTruthyQ]))

/-- C10: on the perp/CEX path, a positive amount spent in USD/USDC/USDT
is recorded with price 1.0 and used as both token amount and USD value,
and is applied to the position; any other spend currency records `None`
amounts and leaves the position untouched. -/
theorem perp_cex_usd_accounting (position : Position) (trade_type : String)
    (a : ℚ) (c : String) (raw : String) (nurl : Option String) :
    (c ∈ ["USD", "USDC", "USDT"] → 0 < a →
      ((process_perp_or_cex_core position trade_type (some a) (some c) raw nurl).1.price_usd = some 1 ∧
       (process_perp_or_cex_core position trade_type (some a) (some c) raw nurl).1.amount_tokens = some a ∧
       (process_perp_or_cex_core position trade_type (some a) (some c) raw nurl).1.total_value_usd = some a ∧
       (process_perp_or_cex_core position trade_type (some a) (some c) raw nurl).2 =
         update_position_from_trade position trade_type a a)) ∧
    (c ∉ ["USD", "USDC", "USDT"] →
      ((process_perp_or_cex_core position trade_type (some a) (some c) raw nurl).1.amount_tokens = none ∧
       (process_perp_or_cex_core position trade_type (some a) (some c) raw nurl).1.total_value_usd = none ∧
       (process_perp_or_cex_core position trade_type (some a) (some c) raw nurl).2 = position)) := by
  constructor
  · intro hc ha
    have hmem : (some c) ∈ [some "USD", some "USDC", some "USDT"] := by simpa using hc
    have hne : a ≠ 0 := ne_of_gt ha
    simp [process_perp_or_cex_core, perpCexAmounts, pyTruthyQ, hmem, hne]
  · intro hc
    have hmem : (some c) ∉ [some "USD", some "USDC", some "USDT"] := by simpa using hc
    simp [process_perp_or_cex_core, perpCexAmounts, pyTruthyQ, hmem]

/-- Witness for C10: a 100 USD perp BUY is recorded at price 1.0 and
applied; a 100 ETH perp BUY records `None` amounts and skips the
position update. -/
theorem perp_cex_usd_accounting_witness :
    ((process_perp_or_cex_core initPosition "BUY" (some 100) (some "USD") "m" none).1.price_usd = some 1 ∧
     (process_perp_or_cex_core initPosition "BUY" (some 100) (some "USD") "m" none).1.amount_tokens = some 100 ∧
     (process_perp_or_cex_core initPosition "BUY" (some 100) (some "USD") "m" none).1.total_value_usd = some 100 ∧
     (process_perp_or_cex_core initPosition "BUY" (some 100) (some "USD") "m" none).2 =
       update_position_from_trade initPosition "BUY" 100 100) ∧
    ((process_perp_or_cex_core initPosition "BUY" (some 100) (some "ETH") "m" none).1.amount_tokens = none ∧
     (process_perp_or_cex_core initPosition "BUY" (some 100) (some "ETH") "m" none).1.total_value_usd = none ∧
     (process_perp_or_cex_core initPosition "BUY" (some 100) (some "ETH") "m" none).2 = initPosition) :=
  ⟨(perp_cex_usd_accounting initPosition "BUY" 100 "USD" "m" none).1 (by decide) (by norm_num),
   (perp_cex_usd_accounting initPosition "BUY" 100 "ETH" "m" none).2 (by decide)⟩

/-! ## Parsing -/

/-- C6 counterexample: the local regex parser does not succeed on
`"100K hype 3x hyperliquid"` — the parse reports failure (the `3x`
between symbol and exchange defeats `SYMBOL_EXCHANGE_PATTERN`, and no
perp keyword is present, so the message is not classified as a perp
trade). -/
theorem hype_leverage_message_not_parsed_as_perp :
    (parse_message_with_regex ("100K hype 3x hyperliquid".toList)).map (fun r => r.success) =
      Except.ok false := rfl

/-- C6 amended: parsing `"100K hype 3x hyperliquid"` with the local
regex parser fails with zero trades and the error message requiring a
contract address or DEX Screener link (the scenario's perp extraction is
only achieved by the oracle parser). -/
theorem hype_leverage_message_parse_result :
    parse_message_with_regex ("100K hype 3x hyperliquid".toList) =
      Except.ok { trades := [], raw_message := "100K hype 3x hyperliquid",
                  success := false,
                  error_message :=
                    some ("No contract address found. Please include the contract address or DEX Screener link.") } :=
  rfl

/-- C7 (code bug): `int(address[2:], 16)` also accepts an inner `0x`
prefix, so the 42-character string `0x0x` followed by 38 zeros — whose
trailing 40 characters are not all hexadecimal digits — classifies as
`evm` rather than `unknown`. -/
theorem inner_prefix_address_classifies_evm :
    detect_address_type "0x0x00000000000000000000000000000000000000" = "evm" ∧
    ("0x0x00000000000000000000000000000000000000".toList.drop 2).all isHexChar = false ∧
    "0x0x00000000000000000000000000000000000000".length = 42 :=
  ⟨by decide, by decide, by decide⟩

/-- A successful address-free single-trade parse has no contract address
and carries exactly the detected trade direction. -/
theorem parse_single_trade_none_fields (text : List Char) (tr : ParsedTrade)
    (h : parse_single_trade text none = .ok tr) :
    tr.contract_address = none ∧ tr.trade_type = detect_trade_type text := by
  unfold parse_single_trade at h
  rcases hu : extract_usd_amounts text with e | us <;> rw [hu] at h <;>
    simp only [Bind.bind, Except.bind] at h
  · exact absurd h (by simp)
  rcases hcr : extract_crypto_amounts text with e | cr <;> rw [hcr] at h <;>
    simp only [Except.bind] at h
  · exact absurd h (by simp)
  rcases hmc : extract_market_cap text with e | mc <;> rw [hmc] at h <;>
    simp only [Except.bind, pure, Except.pure, Except.ok.injEq] at h
  · exact absurd h (by simp)
  rw [← h]
  rcases hd : detect_trade_type text with _ | t <;> simp [hd]

/-- C9 amended: for a message that is neither a perp nor a CEX-spot
trade, in which no contract address is found, and whose amount/market-cap
extraction does not raise (`parse_single_trade` returns normally): if the
detected direction is SELL the parse succeeds with exactly one candidate,
with no contract address and with `contract_address` among its missing
fields; otherwise the parse fails with the explanatory error. -/
theorem no_address_sell_fallback (text : List Char) (tr : ParsedTrade)
    (h1 : is_perp_trade text = false)
    (h2 : extract_cex_spot_info text = none)
    (h3 : find_all_addresses text = [])
    (h4 : parse_single_trade text none = .ok tr) :
    (detect_trade_type text = some "SELL" →
      parse_message_with_regex text =
        .ok { trades := [{ tr with missing_fields := tr.missing_fields ++ ["contract_address"] }],
              raw_message := strOf text, success := true, error_message := none } ∧
      tr.contract_address = none ∧
      "contract_address" ∈
        ({ tr with missing_fields := tr.missing_fields ++ ["contract_address"] } : ParsedTrade).missing_fields) ∧
    (detect_trade_type text ≠ some "SELL" →
      parse_message_with_regex text =
        .ok { trades := [], raw_message := strOf text, success := false,
              error_message :=
                some ("No contract address found. Please include the contract address or DEX Screener link.") }) := by
  obtain ⟨hca, htt⟩ := parse_single_trade_none_fields text tr h4
  unfold parse_message_with_regex
  rw [h1, h2, h3, h4]
  simp only [Bind.bind, Except.bind, Bool.false_eq_true, if_false]
  constructor
  · intro hd
    have htr : tr.trade_type = some "SELL" := by rw [htt, hd]
    rw [if_pos ⟨htr, by rw [hca]; rfl⟩]
    exact ⟨rfl, hca, by simp⟩
  · intro hd
    have htr : ¬(tr.trade_type = some "SELL" ∧ pyTruthyStr tr.contract_address = false) :=
      fun hpair => hd (htt ▸ hpair.1)
    rw [if_neg htr]
    rfl

/-- C9 counterexample: `"sold $,"` is address-free, is not perp or
CEX-spot, and its detected direction is SELL — yet the parse does not
succeed: the USD-amount extractor matches `$,`, comma-stripping leaves
the empty string, and `float('')` raises a ValueError that escapes
`parse_message_with_regex`. -/
theorem sell_with_malformed_amount_raises :
    is_perp_trade ("sold $,".toList) = false ∧
    extract_cex_spot_info ("sold $,".toList) = none ∧
    find_all_addresses ("sold $,".toList) = [] ∧
    detect_trade_type ("sold $,".toList) = some "SELL" ∧
    parse_message_with_regex ("sold $,".toList) =
      Except.error ("ValueError: could not convert string to float") :=
  ⟨rfl, rfl, rfl, rfl, rfl⟩

/-- Witness for C9 (amended) at the message `"sold abc"`: the SELL
branch produces the single candidate with the missing contract address
flagged. -/
theorem no_address_sell_fallback_witness :
    parse_message_with_regex ("sold abc".toList) =
      Except.ok { trades := [{ trade_type := some "SELL", raw_message := "sold abc",
                               parse_confidence := "low",
                               missing_fields := ["amount_spent", "contract_address"] }],
                  raw_message := "sold abc", success := true, error_message := none } :=
  ((no_address_sell_fallback ("sold abc".toList)
      { trade_type := some "SELL", raw_message := "sold abc",
        parse_confidence := "low", missing_fields := ["amount_spent"] }
      rfl rfl rfl rfl).1 rfl).1

/-! ## Amount parsing (C8) -/

theorem dropWhile_eq_self_of_all {p : Char → Bool} (l : List Char)
    (h : ∀ c ∈ l, p c = false) : l.dropWhile p = l := by
  cases l with
  | nil => rfl
  | cons c t => simp [List.dropWhile_cons, h c (List.mem_cons_self c t)]

theorem trimWs_eq_self (l : List Char) (h : ∀ c ∈ l, isSpaceChar c = false) :
    trimWs l = l := by
  unfold trimWs
  rw [dropWhile_eq_self_of_all l h,
      dropWhile_eq_self_of_all l.reverse (fun c hc => h c (List.mem_reverse.mp hc)),
      List.reverse_reverse]

theorem takeWhile_append_all {p : Char → Bool} :
    ∀ l1 l2 : List Char, (∀ c ∈ l1, p c = true) →
      (l1 ++ l2).takeWhile p = l1 ++ l2.takeWhile p ∧
      (l1 ++ l2).dropWhile p = l2.dropWhile p := by
  intro l1
  induction l1 with
  | nil => intro l2 h; simp
  | cons c t ih =>
    intro l2 h
    have hc : p c = true := h c (List.mem_cons_self c t)
    have ht := ih l2 (fun d hd => h d (List.mem_cons_of_mem c hd))
    simp [List.takeWhile_cons, List.dropWhile_cons, hc, ht.1, ht.2]

theorem takeWhile_eq_self_of_all {p : Char → Bool} (l : List Char)
    (h : ∀ c ∈ l, p c = true) : l.takeWhile p = l ∧ l.dropWhile p = [] := by
  simpa using takeWhile_append_all l [] h

theorem takeWhile_mem_imp {p : Char → Bool} :
    ∀ (l : List Char) c, c ∈ l.takeWhile p → p c = true := by
  intro l
  induction l with
  | nil => intro c hc; simp at hc
  | cons a t ih =>
    intro c hc
    rw [List.takeWhile_cons] at hc
    by_cases ha : p a = true
    · rw [if_pos ha] at hc
      rcases List.mem_cons.mp hc with rfl | hc
      · exact ha
      · exact ih c hc
    · rw [if_neg ha] at hc
      simp at hc

theorem digit_not_special {c : Char} (h : c.isDigit = true) :
    isSpaceChar c = false ∧ (c == '+') = false ∧ (c == '-') = false ∧ (c == ',') = false := by
  refine ⟨?_, ?_, ?_, ?_⟩
  · simp only [isSpaceChar, Bool.or_eq_false_iff]
    refine ⟨⟨⟨⟨⟨?_, ?_⟩, ?_⟩, ?_⟩, ?_⟩, ?_⟩ <;>
      (rw [beq_eq_false_iff_ne]; rintro rfl; exact absurd h (by decide))
  · rw [beq_eq_false_iff_ne]; rintro rfl; exact absurd h (by decide)
  · rw [beq_eq_false_iff_ne]; rintro rfl; exact absurd h (by decide)
  · rw [beq_eq_false_iff_ne]; rintro rfl; exact absurd h (by decide)

theorem isDigit_of_digitComma_ne_comma {c : Char} (h1 : isDigitComma c = true)
    (h2 : (c == ',') = false) : c.isDigit = true := by
  simp only [isDigitComma, Bool.or_eq_true] at h1
  rcases h1 with h1 | h1
  · exact h1
  · simp [h1] at h2

theorem head_beq_char (d : Char) (t : List Char) (e : Char) :
    ((d :: t).head? == some e) = (d == e) := rfl

/-- `float` of a nonempty all-digit string is its numeric value. -/
theorem pyFloat_digits (ds : List Char) (hne : ds ≠ [])
    (hd : ∀ c ∈ ds, c.isDigit = true) :
    pyFloat ds = some (digitsToNat ds : ℚ) := by
  have htrim : trimWs ds = ds :=
    trimWs_eq_self ds (fun c hc => (digit_not_special (hd c hc)).1)
  obtain ⟨d, t, rfl⟩ := List.exists_cons_of_ne_nil hne
  have hd0 := hd d (List.mem_cons_self d t)
  obtain ⟨htw, hdw⟩ := takeWhile_eq_self_of_all (p := Char.isDigit) (d :: t) hd
  simp only [pyFloat, pyFloatUnsigned]
  rw [htrim, head_beq_char, head_beq_char, (digit_not_special hd0).2.1,
      (digit_not_special hd0).2.2.1, htw, hdw]
  simp [pyFloatTail]

/-- `float` of digits, a dot, and fraction digits. -/
theorem pyFloat_digits_frac (ds fs : List Char) (hdne : ds ≠ [])
    (hd : ∀ c ∈ ds, c.isDigit = true) (hf : ∀ c ∈ fs, c.isDigit = true) :
    pyFloat (ds ++ '.' :: fs) =
      some ((digitsToNat ds : ℚ) + (digitsToNat fs : ℚ) / 10 ^ fs.length) := by
  have hall : ∀ c ∈ ds ++ '.' :: fs, isSpaceChar c = false := by
    intro c hc
    rcases List.mem_append.mp hc with hc | hc
    · exact (digit_not_special (hd c hc)).1
    · rcases List.mem_cons.mp hc with rfl | hc
      · decide
      · exact (digit_not_special (hf c hc)).1
  have htrim := trimWs_eq_self _ hall
  obtain ⟨d, t, rfl⟩ := List.exists_cons_of_ne_nil hdne
  have hd0 := hd d (List.mem_cons_self d t)
  obtain ⟨htw, hdw⟩ :=
    takeWhile_append_all (p := Char.isDigit) (d :: t) ('.' :: fs) hd
  obtain ⟨hftw, hfdw⟩ := takeWhile_eq_self_of_all (p := Char.isDigit) fs hf
  simp only [pyFloat, pyFloatUnsigned]
  rw [htrim]
  simp only [List.cons_append] at htw hdw ⊢
  rw [head_beq_char, head_beq_char, (digit_not_special hd0).2.1,
      (digit_not_special hd0).2.2.1]
  simp only [Bool.false_eq_true, if_false]
  rw [htw, hdw]
  rw [List.takeWhile_cons, List.dropWhile_cons]
  rw [if_neg (by decide : ¬ (Char.isDigit '.' = true)),
      if_neg (by decide : ¬ (Char.isDigit '.' = true))]
  rw [head_beq_char]
  simp only [List.append_nil, List.drop_one, List.tail_cons, hftw, hfdw]
  simp [pyFloatTail]

/-- All characters of the comma-filtered integer part are digits. -/
theorem filter_digits_of_digitComma (l : List Char)
    (h : ∀ c ∈ l, isDigitComma c = true) :
    ∀ c ∈ l.filter (fun c => c != ','), c.isDigit = true := by
  intro c hc
  have hm := List.mem_filter.mp hc
  exact isDigit_of_digitComma_ne_comma (h c hm.1)
    (beq_eq_false_iff_ne.mpr (by simpa using hm.2))

/-- The bridge: on every well-formed amount literal, Python `float` of
the comma-stripped string computes the specification value. -/
theorem pyFloat_of_wfAmountLit (cs : List Char) (h : wfAmountLit cs = true) :
    pyFloat (cs.filter (fun c => c != ',')) = some (specDecimalValue cs) := by
  have hip : ∀ c ∈ cs.takeWhile isDigitComma, isDigitComma c = true :=
    fun c hc => takeWhile_mem_imp _ c hc
  have hds : ∀ c ∈ (cs.takeWhile isDigitComma).filter (fun c => c != ','), c.isDigit = true :=
    filter_digits_of_digitComma _ hip
  simp only [wfAmountLit, Bool.and_eq_true, Bool.or_eq_true] at h
  obtain ⟨hany, hrest⟩ := h
  obtain ⟨c0, hc0m, hc0d⟩ := List.any_eq_true.mp hany
  have hc0mem : c0 ∈ (cs.takeWhile isDigitComma).filter (fun c => c != ',') :=
    List.mem_filter.mpr ⟨hc0m, by simp [bne, (digit_not_special hc0d).2.2.2]⟩
  have hdsne : (cs.takeWhile isDigitComma).filter (fun c => c != ',') ≠ [] :=
    List.ne_nil_of_mem hc0mem
  have hdecomp : cs.takeWhile isDigitComma ++ cs.dropWhile isDigitComma = cs :=
    List.takeWhile_append_dropWhile isDigitComma cs
  have hfiltercs : cs.filter (fun c => c != ',') =
      (cs.takeWhile isDigitComma).filter (fun c => c != ',') ++
        (cs.dropWhile isDigitComma).filter (fun c => c != ',') := by
    rw [← List.filter_append, hdecomp]
  rcases hrest with hrest | hrest
  · -- no fraction part
    have hrnil : cs.dropWhile isDigitComma = [] := by
      rwa [List.isEmpty_iff] at hrest
    rw [hfiltercs, hrnil]
    simp only [List.filter_nil, List.append_nil]
    rw [pyFloat_digits _ hdsne hds]
    obtain ⟨htw, hdw⟩ := takeWhile_eq_self_of_all (p := Char.isDigit) _ hds
    simp only [specDecimalValue]
    rw [hfiltercs, hrnil]
    simp only [List.filter_nil, List.append_nil, htw, hdw]
    simp [digitsToNat]
  · -- a dot and fraction digits follow
    obtain ⟨⟨hhead, hne⟩, hfd⟩ := hrest
    rcases hr : cs.dropWhile isDigitComma with _ | ⟨r, rt⟩
    · rw [hr] at hhead
      simp at hhead
    · rw [hr] at hhead hne hfd
      rw [head_beq_char] at hhead
      have hrdot : r = '.' := beq_iff_eq.mp hhead
      subst hrdot
      simp only [List.drop_one, List.tail_cons] at hne hfd
      have hrt : ∀ c ∈ rt, c.isDigit = true := fun c hc => by
        have := List.all_eq_true.mp hfd c hc
        simpa using this
      have hfilterrt : rt.filter (fun c => c != ',') = rt :=
        List.filter_eq_self.mpr (fun c hc => by
          simp [bne, (digit_not_special (hrt c hc)).2.2.2])
      rw [hfiltercs, hr]
      rw [List.filter_cons_of_pos (by decide)]
      rw [hfilterrt]
      rw [pyFloat_digits_frac _ rt hdsne hds hrt]
      obtain ⟨htw, hdw⟩ := takeWhile_eq_self_of_all (p := Char.isDigit) _ hds
      simp only [specDecimalValue]
      rw [hfiltercs, hr, List.filter_cons_of_pos (by decide), hfilterrt]
      obtain ⟨htw2, hdw2⟩ :=
        takeWhile_append_all (p := Char.isDigit)
          ((cs.takeWhile isDigitComma).filter (fun c => c != ',')) ('.' :: rt) hds
      rw [htw2, hdw2]
      rw [List.takeWhile_cons, List.dropWhile_cons]
      rw [if_neg (by decide : ¬ (Char.isDigit '.' = true)),
          if_neg (by decide : ¬ (Char.isDigit '.' = true))]
      simp

/-- C8: for every well-formed decimal literal and every suffix among
K, M, B or absent (case-insensitively), `parse_number_with_suffix`
returns exactly the literal value (commas stripped) times the suffix
multiplier. -/
theorem parse_number_with_suffix_spec (v : String) (s : Option String)
    (hv : wfAmountLit v.toList = true)
    (hs : s ∈ [none, some "K", some "k", some "M", some "m", some "B", some "b"]) :
    parse_number_with_suffix v s = .ok (specDecimalValue v.toList * specSuffixMult s) := by
  simp only [parse_number_with_suffix]
  rw [pyFloat_of_wfAmountLit v.toList hv]
  fin_cases hs
  · show Except.ok (specDecimalValue v.toList) =
      Except.ok (specDecimalValue v.toList * 1)
    rw [mul_one]
  all_goals rfl

/-- Witness for C8: the three spec examples —
`parse("1.5","K") = 1500`, `parse("2.3","M") = 2300000`,
`parse("1,500", absent) = 1500`. -/
theorem parse_number_with_suffix_spec_witness :
    parse_number_with_suffix "1.5" (some "K") = .ok 1500 ∧
    parse_number_with_suffix "2.3" (some "M") = .ok 2300000 ∧
    parse_number_with_suffix "1,500" none = .ok 1500 := by
  refine ⟨?_, ?_, ?_⟩
  · rw [parse_number_with_suffix_spec "1.5" (some "K") (by decide) (by decide),
        show specDecimalValue ("1.5".toList) = ((1 : ℕ) : ℚ) + ((5 : ℕ) : ℚ) / 10 ^ 1 from rfl,
        show specSuffixMult (some "K") = 1000 from rfl]
    norm_num
  · rw [parse_number_with_suffix_spec "2.3" (some "M") (by decide) (by decide),
        show specDecimalValue ("2.3".toList) = ((2 : ℕ) : ℚ) + ((3 : ℕ) : ℚ) / 10 ^ 1 from rfl,
        show specSuffixMult (some "M") = 1000000 from rfl]
    norm_num
  · rw [parse_number_with_suffix_spec "1,500" none (by decide) (by decide),
        show specDecimalValue ("1,500".toList) = ((1500 : ℕ) : ℚ) + ((0 : ℕ) : ℚ) / 10 ^ 0 from rfl,
        show specSuffixMult none = 1 from rfl]
    norm_num

end TradeJournal
